import Mathlib

/-!
A shallow embedding of the pyraft consensus core (`pyraft/state.py`,
`pyraft/storage.py`) sufficient to settle the frozen claims about its
specification.  Python integers become `Nat` (terms, indices and counts are
non-negative throughout the source), peer ids become `String`, the opaque
`command` dict of a log entry becomes an opaque `Nat` tag, Python `dict`s
keyed by peer or request id become association lists, and the in-memory
`_cache` / backing-file pair of `FileListStorage` becomes an explicit record.
-/

namespace PyRaft

/-- `schema.LogEntry`: a replicated log entry; the application `command`
mapping is opaque to the core and modelled as a numeric tag. -/
structure LogEntry where
  term : Nat
  command : Nat
deriving DecidableEq

/-- `schema.RequestVote` (the `type` tag is implied by the Lean type). -/
structure RequestVote where
  term : Nat
  candidate_id : String
  last_log_index : Nat
  last_log_term : Nat
deriving DecidableEq

/-- `schema.RequestVoteResponse`. -/
structure RequestVoteResponse where
  term : Nat
  vote_granted : Bool
deriving DecidableEq

/-- `schema.AppendEntries`. -/
structure AppendEntries where
  term : Nat
  leader_id : String
  prev_log_index : Nat
  prev_log_term : Nat
  entries : List LogEntry
  leader_commit : Nat
  request_id : Nat
deriving DecidableEq

/-- `schema.AppendEntriesResponse`. -/
structure AppendEntriesResponse where
  term : Nat
  success : Bool
  last_log_index : Nat
  last_log_term : Nat
  request_id : Nat
deriving DecidableEq

/-- Python slice `xs[:n]` for an `Int` bound: a negative bound counts from the
end (`max 0 (len + n)` elements), a non-negative bound takes `n` elements. -/
def pySliceTo (n : Int) (xs : List α) : List α :=
  if 0 ≤ n then xs.take n.toNat else xs.take (xs.length - (-n).toNat)

/-- `storage.FileListStorage` as used through `FilePersistentLog`: the
in-memory `_cache` plus the lines of the backing file.  `_set_storage_items`
opens the file in append mode (`'ab'`), so rewritten caches are appended to
the file, never truncated from it. -/
structure ListStorage where
  file : List LogEntry
  cache : List LogEntry
deriving DecidableEq

/-- `AbstractListStorage.refresh`: reload the cache from the backing file. -/
def ListStorage.refresh (s : ListStorage) : ListStorage :=
  { s with cache := s.file }

/-- `AbstractListStorage.append_items` (the body of
`FilePersistentLog.append_entries`): write the items to the file, then either
extend the cache or, when `len(self) % UPDATE_CACHE_INTERVAL == 0` (Python
falsiness of `0`), reload it from the file.  `UPDATE_CACHE_INTERVAL = 5`. -/
def ListStorage.append_items (s : ListStorage) (items : List LogEntry) : ListStorage :=
  let s1 : ListStorage := { s with file := s.file ++ items }
  if s1.cache.length % 5 ≠ 0 then { s1 with cache := s1.cache ++ items }
  else s1.refresh

/-- `AbstractListStorage.erase_from`: `new_cache = self._cache[:index-1]`,
then the packed `new_cache` is written (appended) to the file and installed as
the cache.  Entries with 1-based index `≥ index` are dropped from the cache. -/
def ListStorage.erase_from (s : ListStorage) (index : Int) : ListStorage :=
  let new_cache := pySliceTo (index - 1) s.cache
  { file := s.file ++ new_cache, cache := new_cache }

/-- `AbstractListStorage.get_items` for `start_index ≥ 1`: refresh when the
start is beyond the cache, error (`none`) if it still is, then return the
slice `_cache[start_index-1:end_index]`; a zero `end_index` is falsy in
Python and selects the open-ended slice.  An `end_index` below `start_index`
raises (`none`). -/
def ListStorage.get_items (s : ListStorage) (start_index end_index : Nat) :
    Option (List LogEntry) :=
  let s1 := if start_index > s.cache.length then s.refresh else s
  if start_index > s1.cache.length then none
  else if end_index ≠ 0 then
    if end_index < start_index then none
    else some ((s1.cache.drop (start_index - 1)).take (end_index - (start_index - 1)))
  else some (s1.cache.drop (start_index - 1))

/-- `AbstractListStorage.__getitem__`: refresh when the index is beyond the
cache, error (`none`) if it still is; index `0` reads `_cache[-1]`, the last
entry, by Python negative indexing. -/
def ListStorage.getItem (s : ListStorage) (index : Nat) : Option LogEntry :=
  let s1 := if index > s.cache.length then s.refresh else s
  if index > s1.cache.length then none
  else if index = 0 then s1.cache.getLast?
  else s1.cache.get? (index - 1)

/-- `FilePersistentLog.last_log_index = len(self._cache)`. -/
def ListStorage.last_log_index (s : ListStorage) : Nat :=
  s.cache.length

/-- `FilePersistentLog.last_log_term`: term of the last cached entry, 0 when
the cache is empty. -/
def ListStorage.last_log_term (s : ListStorage) : Nat :=
  match s.cache.getLast? with
  | some e => e.term
  | none => 0

/-- `State.is_majority`: `count > len(self.server.cluster) // 2`.
`server.cluster` holds only the *other* peers of the cluster (the startup
driver pops the local peer out of the list before filling it), so the first
argument is the number of other peers. -/
def is_majority (clusterOthers count : Nat) : Bool :=
  count > clusterOthers / 2

/-- The roles of the role engine. -/
inductive Role
  | follower
  | candidate
  | leader
deriving DecidableEq

/-- The fields of a role/storage pair that the universal term rule touches. -/
structure TermState where
  role : Role
  current_term : Nat
  voted_for : Option String
deriving DecidableEq

/-- The `data.term > current_term` branch of `validate_term`, identical for
all four message types: adopt the term; if the receiver is not a Follower,
`state.to_follower()` replaces the role, and the fresh Follower's `start` runs
`init_storage`, which keeps the existing `current_term` key and overwrites
`voted_for` with `None`.  A receiver that already is a Follower keeps its
`voted_for` unchanged. -/
def validateTermAdvance (s : TermState) (msgTerm : Nat) : TermState :=
  if msgTerm > s.current_term then
    let s1 : TermState := { s with current_term := msgTerm }
    if s1.role ≠ Role.follower then
      { role := Role.follower, current_term := s1.current_term, voted_for := none }
    else s1
  else s

/-- The durable key/value store (`FilePersistentState`): either key may be
absent from the backing file. -/
structure PersistentState where
  current_term : Option Nat
  voted_for : Option (Option String)
deriving DecidableEq

/-- `Follower.init_storage`: `current_term` is initialised to 0 only when the
key is absent, but `voted_for` is overwritten with `None` on every Follower
start, including a restart over existing durable state. -/
def initStorage (st : PersistentState) : PersistentState :=
  let st1 := if st.current_term = none then { st with current_term := some 0 } else st
  { st1 with voted_for := some none }

/-- The per-peer state a Follower's message handlers read and write. -/
structure FollowerState where
  current_term : Nat
  voted_for : Option String
  log : ListStorage
  commit_index : Nat
deriving DecidableEq

/-- Body of `Follower.on_receive_request_vote` (after `validate_term`): two
*independent* `if` statements set `vote_granted`, one for the `voted_for`
condition and one for the log up-to-date condition; if either fired,
`voted_for` is overwritten with the candidate id and a grant is replied. -/
def requestVoteBody (s : FollowerState) (data : RequestVote) :
    FollowerState × RequestVoteResponse :=
  let vote_granted := false
  let vote_granted :=
    if s.voted_for = none ∨ s.voted_for = some data.candidate_id then true
    else vote_granted
  let vote_granted :=
    if data.last_log_term > s.log.last_log_term ∨
        (data.last_log_term = s.log.last_log_term ∧
          data.last_log_index ≥ s.log.last_log_index) then true
    else vote_granted
  let s1 := if vote_granted then { s with voted_for := some data.candidate_id } else s
  (s1, ⟨s1.current_term, vote_granted⟩)

/-- `validate_term` composed with `Follower.on_receive_request_vote`.  The
receiver is already a Follower, so a higher term only updates `current_term`
(no role change and `voted_for` untouched); a stale request is answered with
`vote_granted=False` without running the body. -/
def followerOnReceiveRequestVote (s : FollowerState) (data : RequestVote) :
    FollowerState × RequestVoteResponse :=
  if data.term > s.current_term then
    requestVoteBody { s with current_term := data.term } data
  else if data.term < s.current_term then
    (s, ⟨s.current_term, false⟩)
  else
    requestVoteBody s data

/-- Body of `Follower.on_receive_append_entries` (after `validate_term`):
consistency check against `prev_log_index`/`prev_log_term` (index 0 skips
the term check by Python falsiness), truncation with `erase_from`, append,
and the conditional `commit_index = min(leader_commit, last_log_index)`
update; the leader-tracking side effect is outside this embedding. -/
def appendEntriesBody (s : FollowerState) (data : AppendEntries) :
    FollowerState × AppendEntriesResponse :=
  if s.log.last_log_index < data.prev_log_index ∨
      (data.prev_log_index ≠ 0 ∧
        (s.log.getItem data.prev_log_index).map LogEntry.term ≠ some data.prev_log_term) then
    (s, ⟨s.current_term, false, s.log.last_log_index, s.log.last_log_term, data.request_id⟩)
  else
    let s1 := if s.log.last_log_index > data.prev_log_index then
        { s with log := s.log.erase_from data.prev_log_index }
      else s
    let s2 := { s1 with log := s1.log.append_items data.entries }
    let s3 := if data.leader_commit > s2.commit_index then
        { s2 with commit_index := min data.leader_commit s2.log.last_log_index }
      else s2
    (s3, ⟨s3.current_term, true, s3.log.last_log_index, s3.log.last_log_term, data.request_id⟩)

/-- `validate_term` composed with `Follower.on_receive_append_entries`: a
stale message is rejected without running the body; a higher term updates
`current_term` and the body runs (the receiver is already a Follower). -/
def followerOnReceiveAppendEntries (s : FollowerState) (data : AppendEntries) :
    FollowerState × AppendEntriesResponse :=
  if data.term > s.current_term then
    appendEntriesBody { s with current_term := data.term } data
  else if data.term < s.current_term then
    (s, ⟨s.current_term, false, s.log.last_log_index, s.log.last_log_term, data.request_id⟩)
  else
    appendEntriesBody s data

/-- Observable outcome of `Candidate.on_receive_request_vote_response`
composed with `validate_term`.  `validate_term` returns early only for stale
`RequestVote` and `AppendEntries` messages, so for a `RequestVoteResponse`
the body always runs; when the term is higher the role is first replaced by a
Follower and the body then runs on the discarded candidate object, whose
`vote_count` dies with it but whose majority test still calls
`state.to_leader()`. -/
structure CandidateRVROutcome where
  current_term : Nat
  demoted_to_follower : Bool
  vote_count : Nat
  to_leader_invoked : Bool
deriving DecidableEq

/-- `validate_term` composed with
`Candidate.on_receive_request_vote_response`: no term comparison guards the
body, which increments `vote_count` on any granted response and promotes on
`is_majority(vote_count)`. -/
def candidateOnReceiveRequestVoteResponse (clusterOthers current_term vote_count : Nat)
    (data : RequestVoteResponse) : CandidateRVROutcome :=
  let ct := if data.term > current_term then data.term else current_term
  let demoted := decide (data.term > current_term)
  if data.vote_granted then
    let vc := vote_count + 1
    ⟨ct, demoted, vc, is_majority clusterOthers vc⟩
  else
    ⟨ct, demoted, vote_count, false⟩

/-- Python `set.add` on a set modelled as a duplicate-free list. -/
def set_add (x : String) (s : List String) : List String :=
  if x ∈ s then s else s ++ [x]

/-- `self.response_mapping[data.request_id].add(sender_id)` on a
`defaultdict(set)`: accessing a missing key creates it. -/
def mapping_add : List (Nat × List String) → Nat → String → List (Nat × List String)
  | [], rid, x => [(rid, [x])]
  | (k, s) :: rest, rid, x =>
      if k = rid then (k, set_add x s) :: rest
      else (k, s) :: mapping_add rest rid x

/-- Responder set recorded under a request id (empty when absent). -/
def mapping_get (m : List (Nat × List String)) (rid : Nat) : List String :=
  match m.find? (fun p => p.1 == rid) with
  | some p => p.2
  | none => []

/-- `del self.response_mapping[request_id]`. -/
def mapping_erase (m : List (Nat × List String)) (rid : Nat) : List (Nat × List String) :=
  m.filter (fun p => !(p.1 == rid))

/-- The liveness step at the top of `Leader.on_receive_append_entries_response`:
add the responder under the message's `request_id`, then test
`is_majority(len(self.response_mapping) + 1)` — the *number of tracked
request ids* plus one — and on success reset the step-down timer (second
component `true`) and delete this request id's entry. -/
def leaderLivenessStep (clusterOthers : Nat) (mapping : List (Nat × List String))
    (rid : Nat) (sender : String) : List (Nat × List String) × Bool :=
  let m := mapping_add mapping rid sender
  if is_majority clusterOthers (m.length + 1) then (mapping_erase m rid, true)
  else (m, false)

/-- The leader-side state read by `Leader.update_commit_index`
(`match_index` lives on the log object in the source; it is inlined here). -/
structure LeaderState where
  current_term : Nat
  log : ListStorage
  commit_index : Nat
  match_index : List (String × Nat)
deriving DecidableEq

/-- `Leader.update_commit_index`.  The source computes
`committed_count = len([filter(lambda x: x >= index, match_index.values())])`,
the length of a Python list literal holding the single (lazy) filter object —
rendered below as the length of a one-element list holding the filtered
values — so `committed_count` is 1 for every candidate index.  The `else`
branch of the loop is `continue`, not `break`. -/
def update_commit_index (clusterOthers : Nat) (s : LeaderState) : LeaderState :=
  let candidates := List.range' (s.commit_index + 1) (s.log.last_log_index - s.commit_index)
  let committed_on_majority := candidates.foldl
    (fun committed index =>
      let committed_count :=
        [(s.match_index.map Prod.snd).filter (fun x => decide (x ≥ index))].length
      if is_majority clusterOthers (committed_count + 1) ∧
          (s.log.getItem index).map LogEntry.term = some s.current_term then index
      else committed)
    0
  if committed_on_majority > s.commit_index then
    { s with commit_index := committed_on_majority }
  else s

/-- The `entries` computation of `Leader.rpc_append_entries` for one peer:
`log.get_items(next_index, next_index + settings.APPEND_ENTRIES_MAX_NUM)`
when `last_log_index >= next_index`, else `[]`. -/
def rpcAppendEntriesEntries (log : ListStorage) (next_index batch_max : Nat) :
    Option (List LogEntry) :=
  if log.last_log_index ≥ next_index then
    log.get_items next_index (next_index + batch_max)
  else some []

theorem append_items_fresh (xs : List LogEntry) :
    (⟨[], []⟩ : ListStorage).append_items xs = ⟨xs, xs⟩ := by
  simp [ListStorage.append_items, ListStorage.refresh]

theorem pySliceTo_coe_sub_one (k : Nat) (h : 1 ≤ k) (xs : List α) :
    pySliceTo ((k : Int) - 1) xs = xs.take (k - 1) := by
  unfold pySliceTo
  rw [if_pos (by omega)]
  congr 1
  omega

theorem appendEntriesBody_commit_mono (s : FollowerState) (data : AppendEntries)
    (h : s.commit_index ≤ (appendEntriesBody s data).1.log.last_log_index) :
    s.commit_index ≤ (appendEntriesBody s data).1.commit_index := by
  simp only [appendEntriesBody] at h ⊢
  by_cases hrej : s.log.last_log_index < data.prev_log_index ∨
      (data.prev_log_index ≠ 0 ∧
        (s.log.getItem data.prev_log_index).map LogEntry.term ≠ some data.prev_log_term)
  · rw [if_pos hrej]
  · rw [if_neg hrej] at h ⊢
    by_cases he : s.log.last_log_index > data.prev_log_index
    · rw [if_pos he] at h ⊢
      by_cases hc : data.leader_commit >
          ({ s with log := (s.log.erase_from data.prev_log_index).append_items data.entries } :
            FollowerState).commit_index
      · rw [if_pos hc] at h ⊢
        exact le_min (le_of_lt hc) h
      · rw [if_neg hc] at h ⊢
    · rw [if_neg he] at h ⊢
      by_cases hc : data.leader_commit >
          ({ s with log := s.log.append_items data.entries } : FollowerState).commit_index
      · rw [if_pos hc] at h ⊢
        exact le_min (le_of_lt hc) h
      · rw [if_neg hc] at h ⊢

theorem followerAE_commit_mono (s : FollowerState) (data : AppendEntries)
    (h : s.commit_index ≤ (followerOnReceiveAppendEntries s data).1.log.last_log_index) :
    s.commit_index ≤ (followerOnReceiveAppendEntries s data).1.commit_index := by
  unfold followerOnReceiveAppendEntries at h ⊢
  by_cases h1 : data.term > s.current_term
  · rw [if_pos h1] at h ⊢
    exact appendEntriesBody_commit_mono { s with current_term := data.term } data h
  · rw [if_neg h1] at h ⊢
    by_cases h2 : data.term < s.current_term
    · rw [if_pos h2]
    · rw [if_neg h2] at h ⊢
      exact appendEntriesBody_commit_mono s data h

theorem get_items_in_range (s : ListStorage) (a b : Nat) (h1 : 1 ≤ a)
    (h2 : a ≤ s.cache.length) (h3 : a ≤ b) :
    s.get_items a b = some ((s.cache.drop (a - 1)).take (b - (a - 1))) := by
  have c1 : ¬ (a > s.cache.length) := by omega
  have c2 : b ≠ 0 := by omega
  have c3 : ¬ (b < a) := by omega
  simp only [ListStorage.get_items, if_neg c1, if_pos c2, if_neg c3]

/-- Claim C1 (refuted on the code): a Follower at term 1 that already voted
for peer B receives a RequestVote from candidate A at term 1 whose log is
up-to-date; condition (a) of the claim fails, yet the handler grants the vote
and overwrites `voted_for` with A, because the two conditions are tested by
independent `if` statements (a disjunction, not the claimed conjunction). -/
theorem c1_grants_despite_conflicting_vote :
    (followerOnReceiveRequestVote ⟨1, some "B", ⟨[], []⟩, 0⟩
        ⟨1, "A", 0, 0⟩).2.vote_granted = true ∧
    (followerOnReceiveRequestVote ⟨1, some "B", ⟨[], []⟩, 0⟩
        ⟨1, "A", 0, 0⟩).1.voted_for = some "A" := by
  decide

/-- Claim C2 (refuted on the code): in a 3-peer cluster (2 other peers) with
one entry of the current term and `match_index = 0` for both other peers, not
a single peer has replicated index 1 — the true count including the leader is
1, which even the code's own majority test rejects — yet `update_commit_index`
advances `commit_index` to 1, because `len([filter(...)])` is the length of a
one-element list and always yields 1. -/
theorem c2_commit_advances_without_replication :
    (update_commit_index 2
        ⟨1, ⟨[⟨1, 10⟩], [⟨1, 10⟩]⟩, 0, [("B", 0), ("C", 0)]⟩).commit_index = 1 ∧
    ((([("B", 0), ("C", 0)] : List (String × Nat)).map Prod.snd).filter
        (fun x => decide (x ≥ 1))).length = 0 ∧
    is_majority 2 (0 + 1) = false := by
  decide

/-- Claim C3, counterexample: append two entries to a fresh log, then
`erase_from 2`; the claim predicts that reading back the whole log returns
the first two entries, but the code keeps only entries with index < 2, i.e.
the first entry alone. -/
theorem c3_erase_from_counterexample :
    ((((⟨[], []⟩ : ListStorage).append_items [⟨1, 0⟩, ⟨1, 1⟩]).erase_from 2).get_items 1
        ((((⟨[], []⟩ : ListStorage).append_items [⟨1, 0⟩, ⟨1, 1⟩]).erase_from 2).last_log_index))
      ≠ some (([⟨1, 0⟩, ⟨1, 1⟩] : List LogEntry).take 2) := by
  decide

/-- Claim C4 (refuted on the code): a peer already in the Follower role with
`voted_for = B` receives a message of a higher term; the universal term rule
adopts the term but leaves `voted_for` untouched, because the clearing of
`voted_for` happens only inside the role transition taken by non-Followers. -/
theorem c4_follower_keeps_voted_for_on_term_advance :
    validateTermAdvance ⟨Role.follower, 1, some "B"⟩ 2 =
      ⟨Role.follower, 2, some "B"⟩ := by
  decide

/-- Claim C5 (refuted on the code): a Candidate at term 3 with one vote in a
3-peer cluster receives a granted `RequestVoteResponse` of stale term 2; far
from being dropped, the response is counted (`vote_count` becomes 2) and the
majority test fires `state.to_leader()`. -/
theorem c5_stale_granted_response_counted :
    candidateOnReceiveRequestVoteResponse 2 3 1 ⟨2, true⟩ = ⟨3, false, 2, true⟩ := by
  decide

/-- Claim C6 (refuted on the code): the single-node case agrees with the
claim, but with 3 other peers (a 4-peer cluster) a count of 2 passes the
code's test `count > len(cluster) // 2 = 1`, while the claimed formula
`count > cluster_size / 2 = 2` rejects it. -/
theorem c6_majority_over_other_peers_only :
    is_majority 0 1 = true ∧
    is_majority 3 2 = true ∧
    ¬ ((2 : Nat) > (3 + 1) / 2) := by
  decide

/-- Claim C7 (refuted on the code): restarting a Follower over durable state
`current_term = 5, voted_for = A` runs `init_storage`, which keeps the term
but unconditionally overwrites `voted_for` with `None`; a subsequent
RequestVote from C at term 5 is therefore granted, not rejected, and
`voted_for` becomes C. -/
theorem c7_restart_clears_vote_and_regrants :
    initStorage ⟨some 5, some (some "A")⟩ = ⟨some 5, some none⟩ ∧
    (followerOnReceiveRequestVote ⟨5, none, ⟨[], []⟩, 0⟩
        ⟨5, "C", 0, 0⟩).2.vote_granted = true ∧
    (followerOnReceiveRequestVote ⟨5, none, ⟨[], []⟩, 0⟩
        ⟨5, "C", 0, 0⟩).1.voted_for = some "C" := by
  decide

/-- Claim C8 (refuted on the code): in a 5-peer cluster (4 other peers) the
same single responder B answers three distinct request ids; on the third
response the responder set for that request id is just `{B}` — two peers
with the leader, not a majority of 5 — yet the step-down timer is reset,
because the code tests the number of tracked request ids
(`len(self.response_mapping)`), not the size of this request's set. -/
theorem c8_liveness_counts_request_ids_not_responders :
    (leaderLivenessStep 4 [(1, ["B"]), (2, ["B"])] 3 "B").2 = true ∧
    mapping_get (mapping_add [(1, ["B"]), (2, ["B"])] 3 "B") 3 = ["B"] ∧
    is_majority 4 (1 + 1) = false := by
  decide

/-- Claim C9, counterexample: with `batch_max = 3`, a log of 4 entries and
`next_index = 1`, the message's `entries` slice holds all 4 entries — one
more than the claimed cap — because `get_items` treats its end index as
inclusive. -/
theorem c9_batch_exceeds_cap :
    rpcAppendEntriesEntries ⟨[⟨1, 0⟩, ⟨1, 1⟩, ⟨1, 2⟩, ⟨1, 3⟩], [⟨1, 0⟩, ⟨1, 1⟩, ⟨1, 2⟩, ⟨1, 3⟩]⟩ 1 3
      = some [⟨1, 0⟩, ⟨1, 1⟩, ⟨1, 2⟩, ⟨1, 3⟩] ∧
    ¬ (([(⟨1, 0⟩ : LogEntry), ⟨1, 1⟩, ⟨1, 2⟩, ⟨1, 3⟩]).length ≤ 3) := by
  decide

/-- Claim C10, counterexample: a Follower with a 3-entry log and
`commit_index = 2` accepts an AppendEntries with `prev_log_index = 2` (terms
match), no entries and `leader_commit = 3`; the truncation `erase_from 2`
shrinks the log to one entry, and the commit update assigns
`min(3, 1) = 1 < 2` — `commit_index` decreases. -/
theorem c10_commit_index_decreases :
    (followerOnReceiveAppendEntries
        ⟨1, none, ⟨[⟨1, 0⟩, ⟨1, 1⟩, ⟨1, 2⟩], [⟨1, 0⟩, ⟨1, 1⟩, ⟨1, 2⟩]⟩, 2⟩
        ⟨1, "L", 2, 1, [], 3, 7⟩).1.commit_index = 1 ∧
    (followerOnReceiveAppendEntries
        ⟨1, none, ⟨[⟨1, 0⟩, ⟨1, 1⟩, ⟨1, 2⟩], [⟨1, 0⟩, ⟨1, 1⟩, ⟨1, 2⟩]⟩, 2⟩
        ⟨1, "L", 2, 1, [], 3, 7⟩).2.success = true := by
  decide

/-- Claim C3 as amended: `erase_from(i)` deletes exactly the entries with
index `≥ i` and keeps entries `1..i-1`; for every list `xs` and every `k`
with `1 ≤ k ≤ len(xs)`, after `append_items(xs)` on a fresh log followed by
`erase_from(k)` the log's entries are the prefix `xs[:k-1]`, and for
`2 ≤ k` reading `range(1, len)` returns that prefix (for `k = 1` the read
path's cache refresh reloads the append-only backing file instead). -/
theorem c3_amended (xs : List LogEntry) (k : Nat) (h1 : 1 ≤ k) (h2 : k ≤ xs.length) :
    ((((⟨[], []⟩ : ListStorage).append_items xs).erase_from k).cache = xs.take (k - 1)) ∧
    (2 ≤ k →
      (((⟨[], []⟩ : ListStorage).append_items xs).erase_from k).get_items 1
        ((((⟨[], []⟩ : ListStorage).append_items xs).erase_from k).last_log_index) =
        some (xs.take (k - 1))) := by
  have hst : (((⟨[], []⟩ : ListStorage).append_items xs).erase_from k) =
      ⟨xs ++ xs.take (k - 1), xs.take (k - 1)⟩ := by
    rw [append_items_fresh]
    unfold ListStorage.erase_from
    rw [pySliceTo_coe_sub_one k h1]
  refine ⟨by rw [hst], ?_⟩
  intro hk2
  rw [hst]
  have hlen : ((⟨xs ++ xs.take (k - 1), xs.take (k - 1)⟩ : ListStorage).cache).length = k - 1 := by
    simp only [List.length_take]
    omega
  have hb : (⟨xs ++ xs.take (k - 1), xs.take (k - 1)⟩ : ListStorage).last_log_index = k - 1 := by
    unfold ListStorage.last_log_index
    exact hlen
  rw [hb]
  rw [get_items_in_range _ 1 (k - 1) (le_refl 1) (by rw [hlen]; omega) (by omega)]
  simp [List.take_take]

/-- Witness for the amended C3 at `xs` of three entries and `k = 2`. -/
theorem c3_amended_witness :
    (1 ≤ 2 ∧ 2 ≤ ([⟨1, 0⟩, ⟨1, 1⟩, ⟨1, 2⟩] : List LogEntry).length) ∧
    (((((⟨[], []⟩ : ListStorage).append_items [⟨1, 0⟩, ⟨1, 1⟩, ⟨1, 2⟩]).erase_from
          ((2 : Nat) : Int)).cache = ([⟨1, 0⟩, ⟨1, 1⟩, ⟨1, 2⟩] : List LogEntry).take (2 - 1)) ∧
      (2 ≤ 2 →
        ((((⟨[], []⟩ : ListStorage).append_items [⟨1, 0⟩, ⟨1, 1⟩, ⟨1, 2⟩]).erase_from
            ((2 : Nat) : Int)).get_items 1
          (((((⟨[], []⟩ : ListStorage).append_items [⟨1, 0⟩, ⟨1, 1⟩, ⟨1, 2⟩]).erase_from
              ((2 : Nat) : Int)).last_log_index))) =
          some (([⟨1, 0⟩, ⟨1, 1⟩, ⟨1, 2⟩] : List LogEntry).take (2 - 1)))) :=
  ⟨⟨by decide, by decide⟩, c3_amended [⟨1, 0⟩, ⟨1, 1⟩, ⟨1, 2⟩] 2 (by decide) (by decide)⟩

/-- Claim C9 as amended: the `entries` field of every AppendEntries the
Leader builds carries at most `batch_max + 1` entries (the slice's end index
is inclusive): for every peer with `next_index = ni ≥ 1`, when
`last_log_index ≥ ni` the field is the slice of the log starting at `ni` of
length at most `batch_max + 1`, and it is `[]` when `last_log_index < ni`. -/
theorem c9_amended (st : ListStorage) (next_index batch_max : Nat) (h : 1 ≤ next_index) :
    (st.last_log_index < next_index →
      rpcAppendEntriesEntries st next_index batch_max = some []) ∧
    (next_index ≤ st.last_log_index →
      rpcAppendEntriesEntries st next_index batch_max =
        some ((st.cache.drop (next_index - 1)).take (batch_max + 1))) ∧
    (∀ es, rpcAppendEntriesEntries st next_index batch_max = some es →
      es.length ≤ batch_max + 1) := by
  have hempty : st.last_log_index < next_index →
      rpcAppendEntriesEntries st next_index batch_max = some [] := by
    intro hlt
    unfold rpcAppendEntriesEntries
    rw [if_neg (by omega)]
  have hfull : next_index ≤ st.last_log_index →
      rpcAppendEntriesEntries st next_index batch_max =
        some ((st.cache.drop (next_index - 1)).take (batch_max + 1)) := by
    intro hle
    unfold rpcAppendEntriesEntries
    rw [if_pos hle]
    rw [get_items_in_range st next_index (next_index + batch_max) h hle (by omega)]
    congr 2
    omega
  refine ⟨hempty, hfull, ?_⟩
  intro es hes
  rcases Nat.lt_or_ge st.last_log_index next_index with hlt | hge
  · have := (hempty hlt).symm.trans hes
    injection this with this
    rw [← this]
    simp
  · have := (hfull hge).symm.trans hes
    injection this with this
    rw [← this]
    simp only [List.length_take]
    omega

/-- Witness for the amended C9 at a one-entry log, `next_index = 1`,
`batch_max = 3`. -/
theorem c9_amended_witness :
    ((1 : Nat) ≤ 1) ∧
    (((⟨[⟨1, 0⟩], [⟨1, 0⟩]⟩ : ListStorage).last_log_index < 1 →
        rpcAppendEntriesEntries ⟨[⟨1, 0⟩], [⟨1, 0⟩]⟩ 1 3 = some []) ∧
      (1 ≤ (⟨[⟨1, 0⟩], [⟨1, 0⟩]⟩ : ListStorage).last_log_index →
        rpcAppendEntriesEntries ⟨[⟨1, 0⟩], [⟨1, 0⟩]⟩ 1 3 =
          some (((⟨[⟨1, 0⟩], [⟨1, 0⟩]⟩ : ListStorage).cache.drop (1 - 1)).take (3 + 1))) ∧
      (∀ es, rpcAppendEntriesEntries ⟨[⟨1, 0⟩], [⟨1, 0⟩]⟩ 1 3 = some es →
        es.length ≤ 3 + 1)) :=
  ⟨by decide, c9_amended ⟨[⟨1, 0⟩], [⟨1, 0⟩]⟩ 1 3 (by decide)⟩

/-- Claim C10 as amended: the Leader's `update_commit_index` never decreases
`commit_index` (it assigns only strictly larger values); the Follower's
AppendEntries handler keeps `commit_index` non-decreasing whenever the log it
ends up with still reaches the old `commit_index` — but an accepted message
whose `prev_log_index` lies below `commit_index` truncates the log below the
old commit point and then `min(leader_commit, last_log_index)` decreases
`commit_index`. -/
theorem c10_amended :
    (∀ (clusterOthers : Nat) (s : LeaderState),
      s.commit_index ≤ (update_commit_index clusterOthers s).commit_index) ∧
    (∀ (s : FollowerState) (data : AppendEntries),
      s.commit_index ≤ (followerOnReceiveAppendEntries s data).1.log.last_log_index →
      s.commit_index ≤ (followerOnReceiveAppendEntries s data).1.commit_index) := by
  constructor
  · intro clusterOthers s
    simp only [update_commit_index]
    split
    · next hgt => exact Nat.le_of_lt hgt
    · exact le_rfl
  · exact fun s data h => followerAE_commit_mono s data h

/-- Witness for the amended C10 at a concrete follower state and message. -/
theorem c10_amended_witness :
    ((0 : Nat) ≤ (followerOnReceiveAppendEntries ⟨0, none, ⟨[], []⟩, 0⟩
        ⟨0, "L", 0, 0, [], 0, 0⟩).1.log.last_log_index) ∧
    ((0 : Nat) ≤ (followerOnReceiveAppendEntries ⟨0, none, ⟨[], []⟩, 0⟩
        ⟨0, "L", 0, 0, [], 0, 0⟩).1.commit_index) :=
  ⟨by decide, c10_amended.2 ⟨0, none, ⟨[], []⟩, 0⟩ ⟨0, "L", 0, 0, [], 0, 0⟩ (by decide)⟩

end PyRaft
